import Mathlib

/-!
Verification development for the TheChase POS repository.

The definitions below are a shallow embedding of the cart logic and the
checkout workflow in `src/modules/pos.py`, of the record schema in
`src/models.py` (with the fields the checkout path touches), and of the
session commit/rollback discipline of `src/database.py`.

Conventions of the embedding:
  * Money and stock quantities are modelled as exact rationals; the source
    stores them in fixed-point `Numeric` columns and python `Decimal`
    values, and the spec mandates fixed-point decimal, so arithmetic is
    treated as exact.
  * Cart quantities are natural numbers (python ints starting at 1).
  * The SQLAlchemy session is modelled as a pair of database states:
    the committed state and the pending working state.  `session.add`,
    `session.flush` and in-place ORM attribute mutation act on the pending
    state; `commit` publishes it; `rollback` discards it.
  * A run of `process_checkout` is parametrised by an optional failure
    point: `some k` means an exception is raised after the first `k`
    elementary database writes of the attempt (covering failures between
    any two writes, before the first, and during the final commit), which
    lands in the `except` branch of the source and calls `rollback`.
  * `st.session_state` is modelled by the `PosState` record: the cart list,
    the `currency_code` string (initialised to `"KES"`, switched between
    `"KES"` and `"UGX"` by the UI radio), and the optional `user_id`.
-/

/-- One cart line, exactly the dict built by `add_to_cart` in
`src/modules/pos.py`: a fresh UI id, the product id and name, a snapshot of
both currency prices taken from the `Product` at the moment of addition,
a quantity and a preference tag. -/
structure CartItem where
  cart_id : String
  product_id : Nat
  name : String
  price_kes : ℚ
  price_ugx : ℚ
  qty : Nat
  pref : String
deriving Repr, DecidableEq

/-- The fields of `models.Product` that the POS page reads. -/
structure ProductR where
  id : Nat
  name : String
  unit_price_ksh : ℚ
  unit_price_ugx : ℚ
  is_active : Bool
deriving Repr, DecidableEq

/-- The fields of `models.User` that cashier resolution reads:
`id`, `role` and `is_active`. -/
structure UserR where
  id : Nat
  role : String
  is_active : Bool
deriving Repr, DecidableEq

/-- The fields of `models.Inventory` that checkout touches. -/
structure InventoryR where
  product_id : Nat
  quantity_on_hand : ℚ
deriving Repr, DecidableEq

/-- The fields of `models.Order` that `process_checkout` sets.  `tax_total`
and `discount_total` are not passed by the source and take the column
default `0`. -/
structure OrderR where
  id : Nat
  order_number : String
  currency : String
  status : String
  placed_by_id : Nat
  served_by_id : Nat
  cleared_by_id : Nat
  subtotal : ℚ
  tax_total : ℚ
  discount_total : ℚ
  grand_total : ℚ
deriving Repr, DecidableEq

/-- The fields of the `Transaction` record that `process_checkout` sets.
Modelled from the spec: the `db.models` module that `pos.py` imports is not
under `src/`; the record is taken from the spec's Transaction description
(reference, 1:1 order link, cashier, currency, totals, status) together
with the keyword arguments `process_checkout` passes, which include
`amount_paid` and `change_returned`. -/
structure TransactionR where
  id : Nat
  receipt_number : String
  order_id : Nat
  cashier_id : Nat
  currency : String
  status : String
  subtotal : ℚ
  grand_total : ℚ
  amount_paid : ℚ
  change_returned : ℚ
deriving Repr, DecidableEq

/-- The fields of `models.OrderItem` that `process_checkout` sets. -/
structure OrderItemR where
  order_id : Nat
  product_id : Nat
  quantity : ℚ
  unit_price : ℚ
  line_total : ℚ
deriving Repr, DecidableEq

/-- The fields of `models.TransactionItem` that `process_checkout` sets. -/
structure TransactionItemR where
  transaction_id : Nat
  product_id : Nat
  quantity : ℚ
  unit_price : ℚ
  line_total : ℚ
deriving Repr, DecidableEq

/-- The database tables the checkout path reads or writes. -/
structure DB where
  users : List UserR
  products : List ProductR
  inventory : List InventoryR
  orders : List OrderR
  order_items : List OrderItemR
  transactions : List TransactionR
  transaction_items : List TransactionItemR
deriving Repr, DecidableEq

/-- `st.session_state` as far as the POS page uses it. -/
structure PosState where
  cart : List CartItem
  currency_code : String
  user_id : Option Nat
deriving Repr, DecidableEq

/-- `init_pos_state` in `src/modules/pos.py`: fresh session state has an
empty cart and currency code `"KES"`. -/
def init_pos_state : PosState :=
  { cart := [], currency_code := "KES", user_id := none }

/-- The two values of the `models.Currency` enumeration (`src/models.py`
lines 53 to 55), which is also the database enum created by the initial
migration. -/
def currency_enum_values : List String := ["KSH", "UGX"]

-- =========================================================
-- Cart logic (`src/modules/pos.py`, section 2)
-- =========================================================

/-- `default_pref` in `add_to_cart`. -/
def default_pref : String := "Warm"

/-- The new dict appended by `add_to_cart` when no line matches. -/
def new_cart_item (p : ProductR) (fresh : String) : CartItem :=
  { cart_id := fresh, product_id := p.id, name := p.name,
    price_kes := p.unit_price_ksh, price_ugx := p.unit_price_ugx,
    qty := 1, pref := default_pref }

/-- `add_to_cart`: scan the cart for the first line with the same product
id and the default preference; increment its quantity by 1, or append a
new line with quantity 1 at the end.  `fresh` stands for the generated
uuid of the new line. -/
def add_to_cart (p : ProductR) (fresh : String) : List CartItem → List CartItem
  | [] => [new_cart_item p fresh]
  | it :: rest =>
    if it.product_id = p.id ∧ it.pref = default_pref then
      { it with qty := it.qty + 1 } :: rest
    else
      it :: add_to_cart p fresh rest

/-- The inner loop of `consolidate_cart`: merge one incoming line into the
accumulator, adding its quantity to the first line with the same product id
and preference, or appending it at the end. -/
def merge_into (it : CartItem) : List CartItem → List CartItem
  | [] => [it]
  | e :: rest =>
    if e.product_id = it.product_id ∧ e.pref = it.pref then
      { e with qty := e.qty + it.qty } :: rest
    else
      e :: merge_into it rest

/-- `consolidate_cart`: rebuild the cart left to right, merging lines that
share the same product id and preference. -/
def consolidate_cart (cart : List CartItem) : List CartItem :=
  cart.foldl (fun acc it => merge_into it acc) []

/-- The mutation step of `update_item_pref`: set the preference of the
first line with the given cart id. -/
def set_pref_first (cid new_pref : String) : List CartItem → List CartItem
  | [] => []
  | it :: rest =>
    if it.cart_id = cid then { it with pref := new_pref } :: rest
    else it :: set_pref_first cid new_pref rest

/-- `update_item_pref`: change one line's preference, then re-run
consolidation. -/
def update_item_pref (cid new_pref : String) (cart : List CartItem) : List CartItem :=
  consolidate_cart (set_pref_first cid new_pref cart)

/-- `remove_from_cart`: drop the line with the given cart id. -/
def remove_from_cart (cid : String) (cart : List CartItem) : List CartItem :=
  cart.filter (fun it => it.cart_id ≠ cid)

/-- `clear_cart`. -/
def clear_cart : List CartItem := []

/-- The key a cart line is consolidated on: its (product id, preference)
pair. -/
def line_key (it : CartItem) : Nat × String := (it.product_id, it.pref)

/-- The cart invariant of the spec: at most one line per
(product, preference) pair, stated as: the list of line keys has no
duplicate. -/
def cart_consolidated (cart : List CartItem) : Prop :=
  (cart.map line_key).Nodup

instance (cart : List CartItem) : Decidable (cart_consolidated cart) := by
  unfold cart_consolidated
  infer_instance

/-- Total quantity the cart holds for one (product id, preference) pair. -/
def qty_for (pid : Nat) (pref : String) : List CartItem → Nat
  | [] => 0
  | it :: rest =>
    (if it.product_id = pid ∧ it.pref = pref then it.qty else 0) + qty_for pid pref rest

/-- The price snapshot selected by the session currency code: the source
reads the dict key `price_` followed by the lowercased code, and the POS
state only ever holds `"KES"` or `"UGX"`. -/
def cart_price (curr : String) (it : CartItem) : ℚ :=
  if curr = "KES" then it.price_kes else it.price_ugx

/-- The subtotal `process_checkout` computes:
sum of quantity times the selected price snapshot over the cart. -/
def cart_subtotal (curr : String) : List CartItem → ℚ
  | [] => 0
  | it :: rest => (it.qty : ℚ) * cart_price curr it + cart_subtotal curr rest

/-- Total quantity the cart demands of one product across all its lines,
whatever their preference. -/
def cart_demand (pid : Nat) : List CartItem → ℚ
  | [] => 0
  | it :: rest => (if it.product_id = pid then (it.qty : ℚ) else 0) + cart_demand pid rest

-- =========================================================
-- Session discipline (`src/database.py`) and checkout
-- (`src/modules/pos.py`, section 3)
-- =========================================================

/-- A SQLAlchemy session over the database: `db` is the committed state,
`pending` the working state the session's queries and writes see.
`get_session` in `src/database.py` commits on clean exit and rolls back on
an exception. -/
structure Session where
  db : DB
  pending : DB
deriving Repr, DecidableEq

/-- Opening a session: the working state starts at the committed state. -/
def Session.fresh (d : DB) : Session := ⟨d, d⟩

/-- One elementary write (a `session.add` or an in-place ORM attribute
mutation) acts on the pending state only. -/
def Session.applyOp (s : Session) (f : DB → DB) : Session :=
  ⟨s.db, f s.pending⟩

/-- `session.commit`: publish the pending state. -/
def Session.commit (s : Session) : Session := ⟨s.pending, s.pending⟩

/-- `session.rollback`: discard the pending state. -/
def Session.rollback (s : Session) : Session := ⟨s.db, s.db⟩

/-- Run a list of elementary writes against the pending state. -/
def Session.runOps (s : Session) (ops : List (DB → DB)) : Session :=
  ops.foldl Session.applyOp s

/-- Run a list of elementary writes directly on a database state. -/
def runDb (ops : List (DB → DB)) (db : DB) : DB :=
  ops.foldl (fun d f => f d) db

/-- Cashier lookup `session.query(User).filter_by(role="cashier").first()`:
the first user whose role is `"cashier"`, with no condition on
`is_active`. -/
def find_first_cashier : List UserR → Option UserR
  | [] => none
  | u :: rest => if u.role = "cashier" then some u else find_first_cashier rest

/-- Python truthiness of `st.session_state.get('user_id')`:
absent or zero counts as missing. -/
def user_id_falsy : Option Nat → Bool
  | none => true
  | some n => n = 0

/-- Step 1 of `process_checkout`: take the session's `user_id` if truthy,
otherwise fall back to the first user with role `"cashier"`. -/
def resolve_cashier (user_id : Option Nat) (users : List UserR) : Option Nat :=
  if user_id_falsy user_id then (find_first_cashier users).map (fun u => u.id)
  else user_id

/-- The identifiers `process_checkout` obtains from uuid generation and
from `session.flush()`: the two reference strings and the fresh primary
keys of the new order and transaction rows. -/
structure CheckoutRefs where
  order_id : Nat
  tx_id : Nat
  order_ref : String
  tx_ref : String
deriving Repr, DecidableEq

/-- The `Order` row built in step 3 of `process_checkout`: status
`"cleared"`, all three lifecycle actors set to the resolved cashier,
subtotal and grand total both equal to the computed cart subtotal, and
tax and discount at their column default `0`. -/
def mk_order (refs : CheckoutRefs) (curr : String) (cid : Nat) (subtotal : ℚ) : OrderR :=
  { id := refs.order_id, order_number := refs.order_ref, currency := curr,
    status := "cleared", placed_by_id := cid, served_by_id := cid,
    cleared_by_id := cid, subtotal := subtotal, tax_total := 0,
    discount_total := 0, grand_total := subtotal }

/-- The `Transaction` row built in step 4 of `process_checkout`: linked to
the new order, status `"completed"`, the same subtotal and grand total,
`amount_paid` equal to the subtotal and `change_returned` zero. -/
def mk_tx (refs : CheckoutRefs) (curr : String) (cid : Nat) (subtotal : ℚ) : TransactionR :=
  { id := refs.tx_id, receipt_number := refs.tx_ref, order_id := refs.order_id,
    cashier_id := cid, currency := curr, status := "completed",
    subtotal := subtotal, grand_total := subtotal,
    amount_paid := subtotal, change_returned := 0 }

/-- The `OrderItem` row built for one cart line in step 5: quantity and
the unit price snapshot for the selected currency, with
`line_total = quantity * unit_price`. -/
def mk_order_item (oid : Nat) (curr : String) (it : CartItem) : OrderItemR :=
  { order_id := oid, product_id := it.product_id, quantity := (it.qty : ℚ),
    unit_price := cart_price curr it,
    line_total := (it.qty : ℚ) * cart_price curr it }

/-- The `TransactionItem` row mirrored from the same cart line in
step 5. -/
def mk_tx_item (tid : Nat) (curr : String) (it : CartItem) : TransactionItemR :=
  { transaction_id := tid, product_id := it.product_id, quantity := (it.qty : ℚ),
    unit_price := cart_price curr it,
    line_total := (it.qty : ℚ) * cart_price curr it }

/-- The inventory deduction of step 5:
`session.query(Inventory).filter_by(product_id=...).first()` followed by an
in-place decrement — the first matching record loses the line's quantity,
with no lower bound; when no record matches, nothing changes. -/
def dec_inventory (pid : Nat) (q : ℚ) : List InventoryR → List InventoryR
  | [] => []
  | inv :: rest =>
    if inv.product_id = pid then
      { inv with quantity_on_hand := inv.quantity_on_hand - q } :: rest
    else
      inv :: dec_inventory pid q rest

/-- The elementary writes performed for one cart line: add the order item,
add the mirrored transaction item, decrement inventory. -/
def item_ops (oid tid : Nat) (curr : String) (it : CartItem) : List (DB → DB) :=
  [ fun db => { db with order_items := db.order_items ++ [mk_order_item oid curr it] },
    fun db => { db with transaction_items := db.transaction_items ++ [mk_tx_item tid curr it] },
    fun db => { db with inventory := dec_inventory it.product_id (it.qty : ℚ) db.inventory } ]

/-- The item loop of step 5 over the whole cart, in cart order. -/
def items_ops (oid tid : Nat) (curr : String) : List CartItem → List (DB → DB)
  | [] => []
  | it :: rest => item_ops oid tid curr it ++ items_ops oid tid curr rest

/-- All elementary writes of one checkout attempt, in source order:
the order row, the transaction row, then the per-line writes. -/
def checkout_ops (refs : CheckoutRefs) (curr : String) (cid : Nat)
    (cart : List CartItem) : List (DB → DB) :=
  (fun db => { db with orders := db.orders ++ [mk_order refs curr cid (cart_subtotal curr cart)] }) ::
  (fun db => { db with transactions := db.transactions ++ [mk_tx refs curr cid (cart_subtotal curr cart)] }) ::
  items_ops refs.order_id refs.tx_id curr cart

/-- Folding the inventory deductions of a whole cart. -/
def apply_decs (cart : List CartItem) (inv : List InventoryR) : List InventoryR :=
  cart.foldl (fun acc it => dec_inventory it.product_id (it.qty : ℚ) acc) inv

/-- The database state a successful checkout commits, written out
explicitly. -/
def checkout_db (refs : CheckoutRefs) (curr : String) (cid : Nat)
    (cart : List CartItem) (db : DB) : DB :=
  { db with
    orders := db.orders ++ [mk_order refs curr cid (cart_subtotal curr cart)],
    transactions := db.transactions ++ [mk_tx refs curr cid (cart_subtotal curr cart)],
    order_items := db.order_items ++ cart.map (mk_order_item refs.order_id curr),
    transaction_items := db.transaction_items ++ cart.map (mk_tx_item refs.tx_id curr),
    inventory := apply_decs cart db.inventory }

/-- Which `st.error` / `st.success` branch of `process_checkout` fires. -/
inductive CheckoutOutcome
  | emptyCart
  | noCashier
  | error
  | ok
deriving Repr, DecidableEq

/-- The observable result of one `process_checkout` call: the boolean the
function returns, the branch taken, the session afterwards, and the cart
afterwards (cleared only on success). -/
structure CheckoutResult where
  outcome : CheckoutOutcome
  success : Bool
  session : Session
  cart : List CartItem
deriving Repr, DecidableEq

/-- `process_checkout` in `src/modules/pos.py`.  An empty cart returns
`False` before touching the session; an unresolvable cashier likewise.
Otherwise the attempt performs the writes of `checkout_ops`; with no
failure injected it commits, reports success and clears the cart, and with
a failure injected after `k` writes it lands in the `except` branch, rolls
back, and leaves the cart as it was. -/
def process_checkout (ps : PosState) (refs : CheckoutRefs) (s : Session)
    (failAt : Option Nat) : CheckoutResult :=
  if ps.cart.isEmpty then
    ⟨CheckoutOutcome.emptyCart, false, s, ps.cart⟩
  else
    match resolve_cashier ps.user_id s.pending.users with
    | none => ⟨CheckoutOutcome.noCashier, false, s, ps.cart⟩
    | some cid =>
      match failAt with
      | some k =>
        ⟨CheckoutOutcome.error, false,
          (s.runOps ((checkout_ops refs ps.currency_code cid ps.cart).take k)).rollback,
          ps.cart⟩
      | none =>
        ⟨CheckoutOutcome.ok, true,
          (s.runOps (checkout_ops refs ps.currency_code cid ps.cart)).commit,
          clear_cart⟩

-- =========================================================
-- Session lemmas
-- =========================================================

/-- Running writes never touches the committed state; the pending state
evolves as `runDb`. -/
theorem Session.runOps_eq (ops : List (DB → DB)) (s : Session) :
    s.runOps ops = ⟨s.db, runDb ops s.pending⟩ := by
  induction ops generalizing s with
  | nil => rfl
  | cons f rest ih =>
    show Session.runOps (Session.applyOp s f) rest = _
    rw [ih]
    rfl

theorem runDb_append (a b : List (DB → DB)) (db : DB) :
    runDb (a ++ b) db = runDb b (runDb a db) := by
  unfold runDb
  exact List.foldl_append _ _ _ _

/-- The item loop writes exactly the mapped order items, the mapped
transaction items, and the folded inventory deductions. -/
theorem runDb_items_ops (oid tid : Nat) (curr : String) (cart : List CartItem)
    (db : DB) :
    runDb (items_ops oid tid curr cart) db =
      { db with
        order_items := db.order_items ++ cart.map (mk_order_item oid curr),
        transaction_items := db.transaction_items ++ cart.map (mk_tx_item tid curr),
        inventory := apply_decs cart db.inventory } := by
  induction cart generalizing db with
  | nil =>
    simp [items_ops, runDb, apply_decs]
  | cons it rest ih =>
    rw [items_ops, runDb_append]
    have h1 : runDb (item_ops oid tid curr it) db =
        { db with
          order_items := db.order_items ++ [mk_order_item oid curr it],
          transaction_items := db.transaction_items ++ [mk_tx_item tid curr it],
          inventory := dec_inventory it.product_id (it.qty : ℚ) db.inventory } := rfl
    rw [h1, ih]
    simp [apply_decs]

/-- All writes of one attempt produce exactly `checkout_db`. -/
theorem runDb_checkout_ops (refs : CheckoutRefs) (curr : String) (cid : Nat)
    (cart : List CartItem) (db : DB) :
    runDb (checkout_ops refs curr cid cart) db = checkout_db refs curr cid cart db := by
  show runDb (_ :: _ :: items_ops refs.order_id refs.tx_id curr cart) db = _
  unfold runDb
  rw [List.foldl_cons, List.foldl_cons]
  show runDb (items_ops refs.order_id refs.tx_id curr cart) _ = _
  rw [runDb_items_ops]
  rfl

/-- The success path of `process_checkout`, characterised in full: with a
non-empty cart, a resolvable cashier and no failure, the function returns
`True`, commits exactly `checkout_db` applied to the session's working
state, and clears the cart. -/
theorem process_checkout_success (ps : PosState) (refs : CheckoutRefs)
    (s : Session) (cid : Nat)
    (hne : ps.cart ≠ [])
    (hcash : resolve_cashier ps.user_id s.pending.users = some cid) :
    process_checkout ps refs s none =
      ⟨CheckoutOutcome.ok, true,
        ⟨checkout_db refs ps.currency_code cid ps.cart s.pending,
         checkout_db refs ps.currency_code cid ps.cart s.pending⟩, []⟩ := by
  unfold process_checkout
  rw [List.isEmpty_eq_false.mpr hne]
  rw [hcash]
  simp only [Session.runOps_eq, runDb_checkout_ops]
  rfl

-- =========================================================
-- Claim C1 — settlement is all-or-nothing
-- =========================================================

/-- What full rollback means for one attempt run in a freshly opened
session: the returned boolean is `False`, the committed database is
untouched, the session's working state is reset to it, and the cart is
exactly what it was. -/
def rollback_intact (ps : PosState) (refs : CheckoutRefs) (s : Session)
    (k : Nat) : Prop :=
  (process_checkout ps refs s (some k)).success = false ∧
  (process_checkout ps refs s (some k)).session.db = s.db ∧
  (process_checkout ps refs s (some k)).session.pending = s.db ∧
  (process_checkout ps refs s (some k)).cart = ps.cart

/-- Claim C1: settlement is all-or-nothing.  For every POS state, every
freshly opened session and every failure point `k` — before the first
write, between any two writes, or at the final commit — the attempt
returns failure, no order, transaction, item or inventory write persists
(the committed database is unchanged and the session working state is
reset to it), and the cart's lines are exactly as they were before the
attempt. -/
theorem checkout_rolls_back_on_failure (ps : PosState) (refs : CheckoutRefs)
    (s : Session) (k : Nat) (hfresh : s.pending = s.db) :
    rollback_intact ps refs s k := by
  unfold rollback_intact process_checkout
  by_cases hemp : ps.cart.isEmpty
  · simp [hemp, hfresh]
  · simp only [hemp, if_false, Bool.false_eq_true]
    cases hres : resolve_cashier ps.user_id s.pending.users with
    | none => simp [hfresh]
    | some cid => simp [Session.runOps_eq, Session.rollback]

/-- Concrete run of C1: a one-line cart, a database holding one cashier
and one stocked product, and a failure injected after three writes — the
committed database, the working state and the cart are all intact. -/
theorem checkout_rolls_back_on_failure_witness :
    rollback_intact
      { cart := [{ cart_id := "a", product_id := 7, name := "Gin",
                   price_kes := 1000, price_ugx := 30000, qty := 2, pref := "Warm" }],
        currency_code := "KES", user_id := none }
      { order_id := 1, tx_id := 1, order_ref := "ORD-1", tx_ref := "TXN-1" }
      (Session.fresh
        { users := [{ id := 3, role := "cashier", is_active := true }],
          products := [], inventory := [{ product_id := 7, quantity_on_hand := 10 }],
          orders := [], order_items := [], transactions := [], transaction_items := [] })
      3 :=
  checkout_rolls_back_on_failure _ _ _ 3 rfl

-- =========================================================
-- Claim C5 — settling an empty cart creates nothing
-- =========================================================

/-- Claim C5: with zero cart lines, `process_checkout` takes the
empty-cart failure branch and returns `False` before touching the session
— whatever failure point might be injected — so no order, transaction,
item or inventory change is even attempted, and the session is returned
exactly as it was. -/
theorem empty_cart_fails (ps : PosState) (refs : CheckoutRefs) (s : Session)
    (failAt : Option Nat) (hempty : ps.cart = []) :
    process_checkout ps refs s failAt =
      ⟨CheckoutOutcome.emptyCart, false, s, ps.cart⟩ := by
  unfold process_checkout
  rw [hempty]
  rfl

/-- Concrete run of C5: an empty cart against a stocked database fails
with the empty-cart branch and an unchanged session. -/
theorem empty_cart_fails_witness :
    process_checkout
      { cart := [], currency_code := "KES", user_id := none }
      { order_id := 1, tx_id := 1, order_ref := "ORD-1", tx_ref := "TXN-1" }
      (Session.fresh
        { users := [{ id := 3, role := "cashier", is_active := true }],
          products := [], inventory := [{ product_id := 7, quantity_on_hand := 10 }],
          orders := [], order_items := [], transactions := [], transaction_items := [] })
      none =
      ⟨CheckoutOutcome.emptyCart, false,
        Session.fresh
          { users := [{ id := 3, role := "cashier", is_active := true }],
            products := [], inventory := [{ product_id := 7, quantity_on_hand := 10 }],
            orders := [], order_items := [], transactions := [], transaction_items := [] },
        []⟩ :=
  empty_cart_fails _ _ _ none rfl

-- =========================================================
-- Claim C2 — order totals and the mirrored transaction
-- =========================================================

/-- The line totals of the created order items sum to the computed cart
subtotal. -/
theorem sum_line_totals (oid : Nat) (curr : String) (cart : List CartItem) :
    ((cart.map (mk_order_item oid curr)).map (fun oi => oi.line_total)).sum =
      cart_subtotal curr cart := by
  induction cart with
  | nil => rfl
  | cons it rest ih =>
    simp only [List.map_cons, List.sum_cons, cart_subtotal, ih]
    rfl

/-- The totals claim, stated over the order row, transaction row and item
rows a successful checkout commits: the created order's subtotal is the
sum of its items' line totals, its grand total is
subtotal minus discount plus tax with both at zero, every created item
belongs to it, and the single created transaction carries the same
subtotal, grand total and currency and points at the order. -/
def totals_claim (ps : PosState) (refs : CheckoutRefs) (s : Session) (cid : Nat) : Prop :=
  let o := mk_order refs ps.currency_code cid (cart_subtotal ps.currency_code ps.cart)
  let t := mk_tx refs ps.currency_code cid (cart_subtotal ps.currency_code ps.cart)
  let items := ps.cart.map (mk_order_item refs.order_id ps.currency_code)
  (process_checkout ps refs s none).session.db.orders = s.pending.orders ++ [o] ∧
  (process_checkout ps refs s none).session.db.order_items = s.pending.order_items ++ items ∧
  (∀ oi ∈ items, oi.order_id = o.id) ∧
  (items.map (fun oi => oi.line_total)).sum = o.subtotal ∧
  o.grand_total = o.subtotal - o.discount_total + o.tax_total ∧
  o.tax_total = 0 ∧ o.discount_total = 0 ∧ o.grand_total = o.subtotal ∧
  (process_checkout ps refs s none).session.db.transactions = s.pending.transactions ++ [t] ∧
  t.order_id = o.id ∧ t.subtotal = o.subtotal ∧
  t.grand_total = o.grand_total ∧ t.currency = o.currency

/-- Claim C2: for every non-empty cart settled in one of the two session
currencies with a resolvable cashier, the committed order and transaction
satisfy the totals claim at the moment of creation. -/
theorem checkout_totals (ps : PosState) (refs : CheckoutRefs) (s : Session)
    (cid : Nat)
    (_hcurr : ps.currency_code = "KES" ∨ ps.currency_code = "UGX")
    (hne : ps.cart ≠ [])
    (hcash : resolve_cashier ps.user_id s.pending.users = some cid) :
    totals_claim ps refs s cid := by
  unfold totals_claim
  rw [process_checkout_success ps refs s cid hne hcash]
  refine ⟨rfl, rfl, ?_, ?_, ?_, rfl, rfl, rfl, rfl, rfl, rfl, rfl, rfl⟩
  · intro oi hoi
    rcases List.mem_map.mp hoi with ⟨it, _, rfl⟩
    rfl
  · exact sum_line_totals _ _ _
  · show cart_subtotal ps.currency_code ps.cart =
      cart_subtotal ps.currency_code ps.cart - 0 + 0
    ring

/-- Concrete run of C2: a two-line KES cart (2 x 1000 and 3 x 500) settles
into an order with subtotal and grand total 3500, items summing to 3500,
and a matching transaction. -/
theorem checkout_totals_witness :
    totals_claim
      { cart := [{ cart_id := "a", product_id := 7, name := "Gin",
                   price_kes := 1000, price_ugx := 30000, qty := 2, pref := "Warm" },
                 { cart_id := "b", product_id := 9, name := "Tonic",
                   price_kes := 500, price_ugx := 15000, qty := 3, pref := "Cold" }],
        currency_code := "KES", user_id := none }
      { order_id := 1, tx_id := 1, order_ref := "ORD-1", tx_ref := "TXN-1" }
      (Session.fresh
        { users := [{ id := 3, role := "cashier", is_active := true }],
          products := [], inventory := [{ product_id := 7, quantity_on_hand := 10 }],
          orders := [], order_items := [], transactions := [], transaction_items := [] })
      3 :=
  checkout_totals _ _ _ 3 (Or.inl rfl) (by simp) rfl

-- =========================================================
-- Claim C3 — inventory deduction
-- =========================================================

/-- A deduction for a product with no matching inventory record changes
nothing. -/
theorem dec_inventory_not_mem (pid : Nat) (q : ℚ) (inv : List InventoryR)
    (h : ∀ r ∈ inv, r.product_id ≠ pid) : dec_inventory pid q inv = inv := by
  induction inv with
  | nil => rfl
  | cons r rest ih =>
    rw [dec_inventory, if_neg (h r (List.mem_cons_self r rest))]
    rw [ih (fun x hx => h x (List.mem_cons_of_mem r hx))]

/-- Mapping the conditional decrement over records none of which match is
the identity. -/
theorem map_dec_not_mem (pid : Nat) (q : ℚ) (inv : List InventoryR)
    (h : ∀ r ∈ inv, r.product_id ≠ pid) :
    inv.map (fun r => if r.product_id = pid then
        { r with quantity_on_hand := r.quantity_on_hand - q } else r) = inv := by
  induction inv with
  | nil => rfl
  | cons r rest ih =>
    rw [List.map_cons, if_neg (h r (List.mem_cons_self r rest))]
    rw [ih (fun x hx => h x (List.mem_cons_of_mem r hx))]

/-- On an inventory table with pairwise distinct product ids — the schema
has a unique constraint on `inventory.product_id` — the first-match
decrement of the source is the pointwise conditional decrement. -/
theorem dec_inventory_eq_map (pid : Nat) (q : ℚ) (inv : List InventoryR)
    (hnd : (inv.map (fun r => r.product_id)).Nodup) :
    dec_inventory pid q inv =
      inv.map (fun r => if r.product_id = pid then
        { r with quantity_on_hand := r.quantity_on_hand - q } else r) := by
  induction inv with
  | nil => rfl
  | cons r rest ih =>
    rw [List.map_cons, List.nodup_cons] at hnd
    by_cases hr : r.product_id = pid
    · rw [dec_inventory, if_pos hr, List.map_cons, if_pos hr]
      have hrest : ∀ x ∈ rest, x.product_id ≠ pid := by
        intro x hx hcon
        apply hnd.1
        rw [hr, ← hcon]
        exact List.mem_map_of_mem _ hx
      rw [map_dec_not_mem pid q rest hrest]
    · rw [dec_inventory, if_neg hr, List.map_cons, if_neg hr, ih hnd.2]

/-- The conditional decrement keeps every record's product id. -/
theorem map_pid_dec (pid : Nat) (q : ℚ) (inv : List InventoryR) :
    (inv.map (fun r => if r.product_id = pid then
        { r with quantity_on_hand := r.quantity_on_hand - q } else r)).map
        (fun r => r.product_id) = inv.map (fun r => r.product_id) := by
  induction inv with
  | nil => rfl
  | cons r rest ih =>
    rw [List.map_cons, List.map_cons, List.map_cons, ih]
    congr 1
    by_cases h : r.product_id = pid
    · rw [if_pos h]
    · rw [if_neg h]

/-- An empty cart demands nothing of any record. -/
theorem map_sub_zero_demand (inv : List InventoryR) :
    inv.map (fun r => { r with
        quantity_on_hand := r.quantity_on_hand - cart_demand r.product_id [] }) = inv := by
  induction inv with
  | nil => rfl
  | cons r rest ih =>
    rw [List.map_cons, ih]
    congr 1
    simp [cart_demand]

/-- Composing one conditional decrement with the remaining demand gives
the demand of the whole cart. -/
theorem map_dec_then_demand (it : CartItem) (rest : List CartItem)
    (inv : List InventoryR) :
    (inv.map (fun r => if r.product_id = it.product_id then
        { r with quantity_on_hand := r.quantity_on_hand - (it.qty : ℚ) } else r)).map
      (fun r => { r with
        quantity_on_hand := r.quantity_on_hand - cart_demand r.product_id rest }) =
    inv.map (fun r => { r with
        quantity_on_hand := r.quantity_on_hand - cart_demand r.product_id (it :: rest) }) := by
  induction inv with
  | nil => rfl
  | cons r inv2 ih =>
    rw [List.map_cons, List.map_cons, List.map_cons, ih]
    congr 1
    rw [cart_demand]
    by_cases h : r.product_id = it.product_id
    · rw [if_pos h, if_pos h.symm]
      congr 1
      rw [sub_sub]
    · rw [if_neg h, if_neg (fun hc => h hc.symm)]
      congr 1
      rw [zero_add]

/-- On an inventory table with pairwise distinct product ids, running the
whole cart's deductions subtracts, from each record, exactly the summed
quantity the cart demands of that product; records of products the cart
does not reference are untouched, and products with no record are simply
absent. -/
theorem apply_decs_eq_map (cart : List CartItem) (inv : List InventoryR)
    (hnd : (inv.map (fun r => r.product_id)).Nodup) :
    apply_decs cart inv =
      inv.map (fun r => { r with
        quantity_on_hand := r.quantity_on_hand - cart_demand r.product_id cart }) := by
  induction cart generalizing inv with
  | nil =>
    rw [map_sub_zero_demand]
    rfl
  | cons it rest ih =>
    have hstep : apply_decs (it :: rest) inv =
        apply_decs rest (dec_inventory it.product_id (it.qty : ℚ) inv) := rfl
    rw [hstep, dec_inventory_eq_map _ _ _ hnd]
    rw [ih _ (by rw [map_pid_dec]; exact hnd)]
    rw [List.map_map]
    have hcomp := map_dec_then_demand it rest inv
    rw [List.map_map] at hcomp
    exact hcomp

/-- The inventory claim over one successful checkout: each inventory
record loses exactly the summed quantity the cart demands of its product
— with no lower bound, so the remaining quantity may be negative — lines
whose product has no inventory record are skipped, and the checkout still
reports success. -/
def inventory_claim (ps : PosState) (refs : CheckoutRefs) (s : Session) : Prop :=
  (process_checkout ps refs s none).session.db.inventory =
    s.pending.inventory.map (fun r => { r with
      quantity_on_hand := r.quantity_on_hand - cart_demand r.product_id ps.cart }) ∧
  (process_checkout ps refs s none).success = true

/-- Claim C3: for every non-empty cart with a resolvable cashier, against
any inventory table with pairwise distinct product ids, settlement commits
exactly the per-product summed decrements of the cart, skipping lines with
no inventory record, and succeeds. -/
theorem checkout_inventory (ps : PosState) (refs : CheckoutRefs) (s : Session)
    (cid : Nat)
    (hne : ps.cart ≠ [])
    (hcash : resolve_cashier ps.user_id s.pending.users = some cid)
    (hnd : (s.pending.inventory.map (fun r => r.product_id)).Nodup) :
    inventory_claim ps refs s := by
  unfold inventory_claim
  rw [process_checkout_success ps refs s cid hne hcash]
  exact ⟨apply_decs_eq_map ps.cart s.pending.inventory hnd, rfl⟩

/-- Concrete run of C3: product 7 is stocked at 1 and the cart demands
2 + 3 = 5 of it across two lines with different preferences, so its count
goes to -4; product 9 has no inventory record and its line is skipped; the
checkout still succeeds. -/
theorem checkout_inventory_witness :
    inventory_claim
      { cart := [{ cart_id := "a", product_id := 7, name := "Gin",
                   price_kes := 1000, price_ugx := 30000, qty := 2, pref := "Warm" },
                 { cart_id := "b", product_id := 7, name := "Gin",
                   price_kes := 1000, price_ugx := 30000, qty := 3, pref := "Cold" },
                 { cart_id := "c", product_id := 9, name := "Tonic",
                   price_kes := 500, price_ugx := 15000, qty := 1, pref := "Warm" }],
        currency_code := "KES", user_id := none }
      { order_id := 1, tx_id := 1, order_ref := "ORD-1", tx_ref := "TXN-1" }
      (Session.fresh
        { users := [{ id := 3, role := "cashier", is_active := true }],
          products := [], inventory := [{ product_id := 7, quantity_on_hand := 1 }],
          orders := [], order_items := [], transactions := [], transaction_items := [] }) ∧
    ({ product_id := 7, quantity_on_hand := 1 } : InventoryR).quantity_on_hand -
        cart_demand 7
          [{ cart_id := "a", product_id := 7, name := "Gin",
             price_kes := 1000, price_ugx := 30000, qty := 2, pref := "Warm" },
           { cart_id := "b", product_id := 7, name := "Gin",
             price_kes := 1000, price_ugx := 30000, qty := 3, pref := "Cold" },
           { cart_id := "c", product_id := 9, name := "Tonic",
             price_kes := 500, price_ugx := 15000, qty := 1, pref := "Warm" }] = -4 :=
  ⟨checkout_inventory _ _ _ 3 (by simp) rfl (by decide), by norm_num [cart_demand]⟩

-- =========================================================
-- Claim C4 — the cart invariant
-- =========================================================

/-- Merging one line changes the key list only by appending the line's
key when it is new. -/
theorem merge_into_keys (it : CartItem) (acc : List CartItem) :
    (merge_into it acc).map line_key =
      if line_key it ∈ acc.map line_key then acc.map line_key
      else acc.map line_key ++ [line_key it] := by
  induction acc with
  | nil => simp [merge_into]
  | cons e rest ih =>
    by_cases h : e.product_id = it.product_id ∧ e.pref = it.pref
    · have hk : line_key it = line_key e := by
        unfold line_key
        rw [h.1, h.2]
      rw [merge_into, if_pos h, List.map_cons, List.map_cons]
      rw [if_pos (by rw [hk]; exact List.mem_cons_self _ _)]
      rfl
    · have hk : line_key it ≠ line_key e := by
        intro hc
        unfold line_key at hc
        rw [Prod.mk.injEq] at hc
        exact h ⟨hc.1.symm, hc.2.symm⟩
      rw [merge_into, if_neg h, List.map_cons, List.map_cons, ih]
      by_cases hm : line_key it ∈ rest.map line_key
      · rw [if_pos hm, if_pos (List.mem_cons_of_mem _ hm)]
      · rw [if_neg hm, if_neg (by
          intro hc
          rcases List.mem_cons.mp hc with h1 | h2
          · exact hk h1
          · exact hm h2)]
        rfl

/-- Merging preserves the no-duplicate-key invariant. -/
theorem merge_into_nodup (it : CartItem) (acc : List CartItem)
    (h : (acc.map line_key).Nodup) : ((merge_into it acc).map line_key).Nodup := by
  rw [merge_into_keys]
  by_cases hm : line_key it ∈ acc.map line_key
  · rwa [if_pos hm]
  · rw [if_neg hm]
    refine List.Nodup.append h (List.nodup_singleton _) ?_
    intro x hx hx1
    rw [List.mem_singleton] at hx1
    exact hm (hx1 ▸ hx)

/-- Every consolidation pass produces a cart with at most one line per
(product, preference) pair. -/
theorem consolidate_foldl_nodup (cart acc : List CartItem)
    (h : (acc.map line_key).Nodup) :
    ((cart.foldl (fun a it => merge_into it a) acc).map line_key).Nodup := by
  induction cart generalizing acc with
  | nil => exact h
  | cons it rest ih => exact ih _ (merge_into_nodup it acc h)

/-- `consolidate_cart` always returns a consolidated cart. -/
theorem consolidate_cart_consolidated (cart : List CartItem) :
    cart_consolidated (consolidate_cart cart) :=
  consolidate_foldl_nodup cart [] List.nodup_nil

/-- Merging adds the incoming line's quantity to its own key and changes
no other key's total. -/
theorem qty_for_merge_into (pid : Nat) (pref : String) (it : CartItem)
    (acc : List CartItem) :
    qty_for pid pref (merge_into it acc) =
      qty_for pid pref acc +
        (if it.product_id = pid ∧ it.pref = pref then it.qty else 0) := by
  induction acc with
  | nil =>
    show qty_for pid pref [it] = _
    rw [qty_for, qty_for, qty_for]
    omega
  | cons e rest ih =>
    by_cases h : e.product_id = it.product_id ∧ e.pref = it.pref
    · rw [merge_into, if_pos h, qty_for, qty_for]
      by_cases hm : e.product_id = pid ∧ e.pref = pref
      · have hit : it.product_id = pid ∧ it.pref = pref :=
          ⟨h.1 ▸ hm.1, h.2 ▸ hm.2⟩
        rw [if_pos hm, if_pos hm, if_pos hit]
        show e.qty + it.qty + qty_for pid pref rest =
          e.qty + qty_for pid pref rest + it.qty
        omega
      · have hit : ¬(it.product_id = pid ∧ it.pref = pref) := by
          intro hc
          exact hm ⟨h.1.trans hc.1, h.2.trans hc.2⟩
        rw [if_neg hm, if_neg hm, if_neg hit]
        omega
    · rw [merge_into, if_neg h, qty_for, qty_for, ih]
      omega

/-- Folding a merge pass adds the incoming lines' totals key by key. -/
theorem qty_for_foldl_merge (pid : Nat) (pref : String) (cart acc : List CartItem) :
    qty_for pid pref (cart.foldl (fun a it => merge_into it a) acc) =
      qty_for pid pref acc + qty_for pid pref cart := by
  induction cart generalizing acc with
  | nil =>
    rw [List.foldl_nil, qty_for]
    omega
  | cons it rest ih =>
    rw [List.foldl_cons, ih, qty_for_merge_into, qty_for]
    omega

/-- Consolidation preserves the total quantity of every
(product, preference) pair: colliding lines are merged by summing their
quantities, and lines with different keys are never merged together. -/
theorem qty_for_consolidate (pid : Nat) (pref : String) (cart : List CartItem) :
    qty_for pid pref (consolidate_cart cart) = qty_for pid pref cart := by
  unfold consolidate_cart
  rw [qty_for_foldl_merge, qty_for]
  omega

/-- Adding a product changes the key list only by appending the
(product, default preference) key when it is new. -/
theorem add_to_cart_keys (p : ProductR) (f : String) (cart : List CartItem) :
    (add_to_cart p f cart).map line_key =
      if (p.id, default_pref) ∈ cart.map line_key then cart.map line_key
      else cart.map line_key ++ [(p.id, default_pref)] := by
  induction cart with
  | nil => simp [add_to_cart, new_cart_item, line_key]
  | cons it rest ih =>
    by_cases h : it.product_id = p.id ∧ it.pref = default_pref
    · have hk : line_key it = (p.id, default_pref) := by
        unfold line_key
        rw [h.1, h.2]
      rw [add_to_cart, if_pos h, List.map_cons, List.map_cons]
      rw [if_pos (by rw [← hk]; exact List.mem_cons_self _ _)]
      rfl
    · have hk : line_key it ≠ (p.id, default_pref) := by
        intro hc
        unfold line_key at hc
        rw [Prod.mk.injEq] at hc
        exact h ⟨hc.1, hc.2⟩
      rw [add_to_cart, if_neg h, List.map_cons, List.map_cons, ih]
      by_cases hm : (p.id, default_pref) ∈ rest.map line_key
      · rw [if_pos hm, if_pos (List.mem_cons_of_mem _ hm)]
      · rw [if_neg hm, if_neg (by
          intro hc
          rcases List.mem_cons.mp hc with h1 | h2
          · exact hk h1.symm
          · exact hm h2)]
        rfl

/-- Adding preserves the no-duplicate-key invariant. -/
theorem add_to_cart_nodup (p : ProductR) (f : String) (cart : List CartItem)
    (h : (cart.map line_key).Nodup) :
    ((add_to_cart p f cart).map line_key).Nodup := by
  rw [add_to_cart_keys]
  by_cases hm : (p.id, default_pref) ∈ cart.map line_key
  · rwa [if_pos hm]
  · rw [if_neg hm]
    refine List.Nodup.append h (List.nodup_singleton _) ?_
    intro x hx hx1
    rw [List.mem_singleton] at hx1
    exact hm (hx1 ▸ hx)

/-- Adding a product raises the total of its (product, default
preference) key by exactly 1 and changes no other key's total. -/
theorem qty_for_add_to_cart (p : ProductR) (f : String) (cart : List CartItem)
    (pid : Nat) (pref : String) :
    qty_for pid pref (add_to_cart p f cart) =
      qty_for pid pref cart +
        (if p.id = pid ∧ default_pref = pref then 1 else 0) := by
  induction cart with
  | nil =>
    show qty_for pid pref [new_cart_item p f] = _
    rw [qty_for, qty_for, qty_for]
    rcases Classical.em (p.id = pid ∧ default_pref = pref) with h | h
    · rw [if_pos h, if_pos (show (new_cart_item p f).product_id = pid ∧
        (new_cart_item p f).pref = pref from h)]
      rfl
    · rw [if_neg h, if_neg (show ¬((new_cart_item p f).product_id = pid ∧
        (new_cart_item p f).pref = pref) from h)]
  | cons it rest ih =>
    by_cases h : it.product_id = p.id ∧ it.pref = default_pref
    · rw [add_to_cart, if_pos h, qty_for, qty_for]
      by_cases hm : it.product_id = pid ∧ it.pref = pref
      · have hp : p.id = pid ∧ default_pref = pref :=
          ⟨h.1 ▸ hm.1, h.2 ▸ hm.2⟩
        rw [if_pos hm, if_pos hm, if_pos hp]
        show it.qty + 1 + qty_for pid pref rest =
          it.qty + qty_for pid pref rest + 1
        omega
      · have hp : ¬(p.id = pid ∧ default_pref = pref) := by
          intro hc
          exact hm ⟨h.1.trans hc.1, h.2.trans hc.2⟩
        rw [if_neg hm, if_neg hm, if_neg hp]
        omega
    · rw [add_to_cart, if_neg h, qty_for, qty_for, ih]
      omega

/-- The cart invariant claim, in five parts: adding to a consolidated
cart keeps it consolidated; adding the same product twice to an empty
cart yields one line of quantity 2, not two lines; a preference update
always leaves a consolidated cart; consolidation preserves every
(product, preference) pair's total quantity — colliding lines merge by
summing, lines with different preferences are never merged; and adding
raises exactly the (product, default preference) total by 1. -/
def cart_invariant_claim : Prop :=
  (∀ (p : ProductR) (f : String) (cart : List CartItem),
      cart_consolidated cart → cart_consolidated (add_to_cart p f cart)) ∧
  (∀ (p : ProductR) (f1 f2 : String),
      add_to_cart p f2 (add_to_cart p f1 []) =
        [{ new_cart_item p f1 with qty := 2 }]) ∧
  (∀ (cid newPref : String) (cart : List CartItem),
      cart_consolidated (update_item_pref cid newPref cart)) ∧
  (∀ (pid : Nat) (pref : String) (cart : List CartItem),
      qty_for pid pref (consolidate_cart cart) = qty_for pid pref cart) ∧
  (∀ (p : ProductR) (f : String) (cart : List CartItem) (pid : Nat) (pref : String),
      qty_for pid pref (add_to_cart p f cart) =
        qty_for pid pref cart +
          (if p.id = pid ∧ default_pref = pref then 1 else 0))

/-- Claim C4: the cart keeps at most one line per (product, preference)
pair across its mutations, merges only colliding keys, preserves
per-key totals under consolidation, and increments on a repeated add
instead of adding a second line. -/
theorem cart_invariant_holds : cart_invariant_claim := by
  refine ⟨?_, ?_, ?_, ?_, ?_⟩
  · intro p f cart h
    exact add_to_cart_nodup p f cart h
  · intro p f1 f2
    show add_to_cart p f2 [new_cart_item p f1] = _
    rw [add_to_cart, if_pos ⟨rfl, rfl⟩]
    rfl
  · intro cid newPref cart
    exact consolidate_cart_consolidated _
  · intro pid pref cart
    exact qty_for_consolidate pid pref cart
  · intro p f cart pid pref
    exact qty_for_add_to_cart p f cart pid pref

/-- Concrete run of C4: adding the same product twice to an empty cart
yields a consolidated cart that is the single default-preference line
with quantity 2. -/
theorem cart_invariant_witness :
    cart_consolidated
      (add_to_cart { id := 1, name := "Gin", unit_price_ksh := 1000,
                     unit_price_ugx := 30000, is_active := true } "u2"
        (add_to_cart { id := 1, name := "Gin", unit_price_ksh := 1000,
                       unit_price_ugx := 30000, is_active := true } "u1" [])) ∧
    add_to_cart { id := 1, name := "Gin", unit_price_ksh := 1000,
                  unit_price_ugx := 30000, is_active := true } "u2"
      (add_to_cart { id := 1, name := "Gin", unit_price_ksh := 1000,
                     unit_price_ugx := 30000, is_active := true } "u1" []) =
      [{ new_cart_item { id := 1, name := "Gin", unit_price_ksh := 1000,
                         unit_price_ugx := 30000, is_active := true } "u1" with
         qty := 2 }] :=
  ⟨cart_invariant_holds.1 _ "u2" _
      (cart_invariant_holds.1 _ "u1" [] (by decide)),
   cart_invariant_holds.2.1 _ "u1" "u2"⟩

-- =========================================================
-- Claim C6 — mirrored items priced from the cart snapshot
-- =========================================================

/-- The items claim over one successful checkout: exactly one order item
and one mirrored transaction item per cart line, agreeing on product,
quantity, unit price and line total; the unit price is the cart line's
snapshot for the selected currency with line total quantity times unit
price; the created items are fully determined by product, quantity and
the selected snapshot (so neither the live Product row nor the
non-selected snapshot matters); the selected snapshot reads only the
matching price field; and replacing the whole products table changes
nothing in the created items. -/
def items_mirror_claim (ps : PosState) (refs : CheckoutRefs) (s : Session) : Prop :=
  (process_checkout ps refs s none).session.db.order_items =
      s.pending.order_items ++ ps.cart.map (mk_order_item refs.order_id ps.currency_code) ∧
  (process_checkout ps refs s none).session.db.transaction_items =
      s.pending.transaction_items ++ ps.cart.map (mk_tx_item refs.tx_id ps.currency_code) ∧
  (∀ it : CartItem,
      (mk_order_item refs.order_id ps.currency_code it).product_id = it.product_id ∧
      (mk_order_item refs.order_id ps.currency_code it).quantity = (it.qty : ℚ) ∧
      (mk_order_item refs.order_id ps.currency_code it).unit_price =
        cart_price ps.currency_code it ∧
      (mk_order_item refs.order_id ps.currency_code it).line_total =
        (it.qty : ℚ) * cart_price ps.currency_code it ∧
      (mk_tx_item refs.tx_id ps.currency_code it).product_id =
        (mk_order_item refs.order_id ps.currency_code it).product_id ∧
      (mk_tx_item refs.tx_id ps.currency_code it).quantity =
        (mk_order_item refs.order_id ps.currency_code it).quantity ∧
      (mk_tx_item refs.tx_id ps.currency_code it).unit_price =
        (mk_order_item refs.order_id ps.currency_code it).unit_price ∧
      (mk_tx_item refs.tx_id ps.currency_code it).line_total =
        (mk_order_item refs.order_id ps.currency_code it).line_total) ∧
  (∀ it1 it2 : CartItem, it1.product_id = it2.product_id → it1.qty = it2.qty →
      cart_price ps.currency_code it1 = cart_price ps.currency_code it2 →
      mk_order_item refs.order_id ps.currency_code it1 =
        mk_order_item refs.order_id ps.currency_code it2 ∧
      mk_tx_item refs.tx_id ps.currency_code it1 =
        mk_tx_item refs.tx_id ps.currency_code it2) ∧
  (∀ it : CartItem, cart_price "KES" it = it.price_kes ∧
      cart_price "UGX" it = it.price_ugx) ∧
  (∀ prods : List ProductR,
      (process_checkout ps refs
          ⟨s.db, { s.pending with products := prods }⟩ none).session.db.order_items =
        s.pending.order_items ++
          ps.cart.map (mk_order_item refs.order_id ps.currency_code) ∧
      (process_checkout ps refs
          ⟨s.db, { s.pending with products := prods }⟩ none).session.db.transaction_items =
        s.pending.transaction_items ++
          ps.cart.map (mk_tx_item refs.tx_id ps.currency_code))

/-- Claim C6: for every non-empty cart settled in one of the two session
currencies with a resolvable cashier, the items claim holds. -/
theorem checkout_items_mirror (ps : PosState) (refs : CheckoutRefs)
    (s : Session) (cid : Nat)
    (_hcurr : ps.currency_code = "KES" ∨ ps.currency_code = "UGX")
    (hne : ps.cart ≠ [])
    (hcash : resolve_cashier ps.user_id s.pending.users = some cid) :
    items_mirror_claim ps refs s := by
  unfold items_mirror_claim
  rw [process_checkout_success ps refs s cid hne hcash]
  refine ⟨rfl, rfl, ?_, ?_, ?_, ?_⟩
  · intro it
    exact ⟨rfl, rfl, rfl, rfl, rfl, rfl, rfl, rfl⟩
  · intro it1 it2 h1 h2 h3
    constructor
    · unfold mk_order_item
      rw [h1, h2, h3]
    · unfold mk_tx_item
      rw [h1, h2, h3]
  · intro it
    constructor
    · rfl
    · rfl
  · intro prods
    rw [process_checkout_success ps refs ⟨s.db, { s.pending with products := prods }⟩ cid hne hcash]
    exact ⟨rfl, rfl⟩

/-- Concrete run of C6: a KES checkout of one line with distinct KES and
UGX snapshots produces one order item and one mirrored transaction item,
priced from the KES snapshot. -/
theorem checkout_items_mirror_witness :
    items_mirror_claim
      { cart := [{ cart_id := "a", product_id := 7, name := "Gin",
                   price_kes := 1000, price_ugx := 30000, qty := 2, pref := "Warm" }],
        currency_code := "KES", user_id := none }
      { order_id := 1, tx_id := 1, order_ref := "ORD-1", tx_ref := "TXN-1" }
      (Session.fresh
        { users := [{ id := 3, role := "cashier", is_active := true }],
          products := [{ id := 7, name := "Gin", unit_price_ksh := 9999,
                         unit_price_ugx := 8888, is_active := true }],
          inventory := [], orders := [], order_items := [],
          transactions := [], transaction_items := [] }) :=
  checkout_items_mirror _ _ _ 3 (Or.inl rfl) (by simp) rfl

-- =========================================================
-- Claim C7 — currency versus the models.Currency enumeration
-- =========================================================

/-- Claim C7 (code/model mismatch, evaluated at the failing input): the
POS session currency is initialised to `"KES"` and checkout persists that
string on the order and transaction rows it creates, yet `"KES"` is not a
member of the two-value `models.Currency` enumeration `KSH`/`UGX` that
the orders and transactions columns are declared with — so a settlement
run in the default session currency persists a currency value outside the
closed enumeration. -/
theorem currency_outside_enum_at_default :
    init_pos_state.currency_code = "KES" ∧
    "KES" ∉ currency_enum_values ∧
    (process_checkout
        { cart := [{ cart_id := "a", product_id := 7, name := "Gin",
                     price_kes := 1000, price_ugx := 30000, qty := 1, pref := "Warm" }],
          currency_code := init_pos_state.currency_code, user_id := none }
        { order_id := 1, tx_id := 1, order_ref := "ORD-1", tx_ref := "TXN-1" }
        (Session.fresh
          { users := [{ id := 3, role := "cashier", is_active := true }],
            products := [], inventory := [], orders := [], order_items := [],
            transactions := [], transaction_items := [] })
        none).outcome = CheckoutOutcome.ok ∧
    (process_checkout
        { cart := [{ cart_id := "a", product_id := 7, name := "Gin",
                     price_kes := 1000, price_ugx := 30000, qty := 1, pref := "Warm" }],
          currency_code := init_pos_state.currency_code, user_id := none }
        { order_id := 1, tx_id := 1, order_ref := "ORD-1", tx_ref := "TXN-1" }
        (Session.fresh
          { users := [{ id := 3, role := "cashier", is_active := true }],
            products := [], inventory := [], orders := [], order_items := [],
            transactions := [], transaction_items := [] })
        none).session.db.orders.map (fun o => o.currency) = ["KES"] ∧
    (process_checkout
        { cart := [{ cart_id := "a", product_id := 7, name := "Gin",
                     price_kes := 1000, price_ugx := 30000, qty := 1, pref := "Warm" }],
          currency_code := init_pos_state.currency_code, user_id := none }
        { order_id := 1, tx_id := 1, order_ref := "ORD-1", tx_ref := "TXN-1" }
        (Session.fresh
          { users := [{ id := 3, role := "cashier", is_active := true }],
            products := [], inventory := [], orders := [], order_items := [],
            transactions := [], transaction_items := [] })
        none).session.db.transactions.map (fun t => t.currency) = ["KES"] := by
  refine ⟨rfl, by decide, rfl, rfl, rfl⟩

-- =========================================================
-- Claim C8 — the default preference tag
-- =========================================================

/-- Counterexample to claim C8 as stated: adding a product to an empty
cart with no preference supplied creates a line tagged `"Warm"`, not
`"Standard"`. -/
theorem add_default_pref_counterexample :
    (add_to_cart { id := 1, name := "Gin", unit_price_ksh := 1000,
                   unit_price_ugx := 30000, is_active := true } "u1" []).map
        (fun it => it.pref) = ["Warm"] ∧
    "Warm" ≠ "Standard" :=
  ⟨rfl, by decide⟩

/-- The amended default-preference claim: adding without a preference
always targets the tag `"Warm"` — it raises the (product, `"Warm"`) total
by exactly 1 (creating the line when absent, incrementing it when
present) and leaves every other (product, preference) total unchanged. -/
def add_default_pref_claim : Prop :=
  default_pref = "Warm" ∧
  (∀ (p : ProductR) (f : String) (cart : List CartItem),
      qty_for p.id "Warm" (add_to_cart p f cart) = qty_for p.id "Warm" cart + 1) ∧
  (∀ (p : ProductR) (f : String) (cart : List CartItem) (pid : Nat) (pref : String),
      ¬(pid = p.id ∧ pref = "Warm") →
      qty_for pid pref (add_to_cart p f cart) = qty_for pid pref cart)

/-- Claim C8 as amended: the line created or incremented by a
preference-less add carries the tag `"Warm"`. -/
theorem add_default_pref_holds : add_default_pref_claim := by
  refine ⟨rfl, ?_, ?_⟩
  · intro p f cart
    rw [qty_for_add_to_cart, if_pos ⟨rfl, rfl⟩]
  · intro p f cart pid pref h
    rw [qty_for_add_to_cart, if_neg (fun hc => h ⟨hc.1.symm, hc.2.symm⟩)]
    omega

/-- Concrete run of C8 as amended: one add puts quantity 1 on the
(product, `"Warm"`) pair and nothing on (product, `"Cold"`). -/
theorem add_default_pref_witness :
    qty_for 1 "Warm"
        (add_to_cart { id := 1, name := "Gin", unit_price_ksh := 1000,
                       unit_price_ugx := 30000, is_active := true } "u1" []) = 1 ∧
    qty_for 1 "Cold"
        (add_to_cart { id := 1, name := "Gin", unit_price_ksh := 1000,
                       unit_price_ugx := 30000, is_active := true } "u1" []) = 0 :=
  ⟨add_default_pref_holds.2.1 _ "u1" [],
   add_default_pref_holds.2.2 _ "u1" [] 1 "Cold" (by decide)⟩

-- =========================================================
-- Claim C9 — cashier fallback resolution
-- =========================================================

/-- Counterexample to claim C9 as stated: with a database whose only user
is an INACTIVE cashier — so no active cashier is resolvable — settlement
does not fail: it resolves the inactive cashier, succeeds, and creates an
order, because the fallback query filters on role only and never checks
`is_active`. -/
theorem inactive_cashier_counterexample :
    (∀ u ∈ ([{ id := 1, role := "cashier", is_active := false }] : List UserR),
        u.is_active = false) ∧
    (process_checkout
        { cart := [{ cart_id := "a", product_id := 7, name := "Gin",
                     price_kes := 1000, price_ugx := 30000, qty := 1, pref := "Warm" }],
          currency_code := "KES", user_id := none }
        { order_id := 1, tx_id := 1, order_ref := "ORD-1", tx_ref := "TXN-1" }
        (Session.fresh
          { users := [{ id := 1, role := "cashier", is_active := false }],
            products := [], inventory := [], orders := [], order_items := [],
            transactions := [], transaction_items := [] })
        none).success = true ∧
    (process_checkout
        { cart := [{ cart_id := "a", product_id := 7, name := "Gin",
                     price_kes := 1000, price_ugx := 30000, qty := 1, pref := "Warm" }],
          currency_code := "KES", user_id := none }
        { order_id := 1, tx_id := 1, order_ref := "ORD-1", tx_ref := "TXN-1" }
        (Session.fresh
          { users := [{ id := 1, role := "cashier", is_active := false }],
            products := [], inventory := [], orders := [], order_items := [],
            transactions := [], transaction_items := [] })
        none).session.db.orders.length = 1 := by
  refine ⟨by decide, rfl, rfl⟩

/-- The amended cashier-resolution claim, over states with no supplied
staff identifier: the acting cashier is the first user with role
`"cashier"` regardless of `is_active`, and when no user with that role
exists at all, settlement fails on the no-cashier branch with the session
— hence every table and the inventory — and the cart untouched. -/
def cashier_fallback_claim (ps : PosState) (refs : CheckoutRefs) (s : Session) : Prop :=
  (resolve_cashier ps.user_id s.pending.users =
      (find_first_cashier s.pending.users).map (fun u => u.id)) ∧
  (find_first_cashier s.pending.users = none →
      process_checkout ps refs s none =
        ⟨CheckoutOutcome.noCashier, false, s, ps.cart⟩)

/-- Claim C9 as amended: with no staff identifier supplied and a
non-empty cart, resolution falls back to the first role-cashier user
(active or not), and settlement fails creating nothing when no such user
exists. -/
theorem cashier_fallback (ps : PosState) (refs : CheckoutRefs) (s : Session)
    (hfalsy : user_id_falsy ps.user_id = true)
    (hne : ps.cart ≠ []) :
    cashier_fallback_claim ps refs s := by
  unfold cashier_fallback_claim
  constructor
  · unfold resolve_cashier
    rw [hfalsy]
    rfl
  · intro hnone
    unfold process_checkout
    rw [List.isEmpty_eq_false.mpr hne]
    unfold resolve_cashier
    rw [hfalsy, if_pos rfl, hnone]
    rfl

/-- Concrete run of C9 as amended: a database whose only user is an admin
has no role-cashier user, so checkout takes the no-cashier branch and
leaves the session and cart untouched. -/
theorem cashier_fallback_witness :
    cashier_fallback_claim
      { cart := [{ cart_id := "a", product_id := 7, name := "Gin",
                   price_kes := 1000, price_ugx := 30000, qty := 1, pref := "Warm" }],
        currency_code := "KES", user_id := none }
      { order_id := 1, tx_id := 1, order_ref := "ORD-1", tx_ref := "TXN-1" }
      (Session.fresh
        { users := [{ id := 1, role := "admin", is_active := true }],
          products := [], inventory := [], orders := [], order_items := [],
          transactions := [], transaction_items := [] }) :=
  cashier_fallback _ _ _ rfl (by simp)

-- =========================================================
-- Claim C10 — full payment, zero change
-- =========================================================

/-- The full-payment claim over one successful checkout: exactly one
transaction row is created, and every transaction row the checkout adds
records `amount_paid` equal to its `grand_total` and `change_returned`
equal to zero. -/
def full_payment_claim (ps : PosState) (refs : CheckoutRefs) (s : Session)
    (cid : Nat) : Prop :=
  (process_checkout ps refs s none).session.db.transactions =
      s.pending.transactions ++
        [mk_tx refs ps.currency_code cid (cart_subtotal ps.currency_code ps.cart)] ∧
  (∀ t ∈ (process_checkout ps refs s none).session.db.transactions,
      t ∉ s.pending.transactions →
      t.amount_paid = t.grand_total ∧ t.change_returned = 0)

/-- Claim C10: every transaction created by settlement is persisted as an
exact full payment — `amount_paid` equals `grand_total` and
`change_returned` is zero. -/
theorem checkout_full_payment (ps : PosState) (refs : CheckoutRefs)
    (s : Session) (cid : Nat)
    (hne : ps.cart ≠ [])
    (hcash : resolve_cashier ps.user_id s.pending.users = some cid) :
    full_payment_claim ps refs s cid := by
  unfold full_payment_claim
  rw [process_checkout_success ps refs s cid hne hcash]
  refine ⟨rfl, ?_⟩
  intro t ht hnotold
  rcases List.mem_append.mp ht with hold | hnew
  · exact absurd hold hnotold
  · rw [List.mem_singleton] at hnew
    rw [hnew]
    exact ⟨rfl, rfl⟩

/-- Concrete run of C10: a 2 x 1000 KES cart settles into one transaction
with `amount_paid` equal to its `grand_total` and zero change. -/
theorem checkout_full_payment_witness :
    full_payment_claim
      { cart := [{ cart_id := "a", product_id := 7, name := "Gin",
                   price_kes := 1000, price_ugx := 30000, qty := 2, pref := "Warm" }],
        currency_code := "KES", user_id := none }
      { order_id := 1, tx_id := 1, order_ref := "ORD-1", tx_ref := "TXN-1" }
      (Session.fresh
        { users := [{ id := 3, role := "cashier", is_active := true }],
          products := [], inventory := [], orders := [], order_items := [],
          transactions := [], transaction_items := [] })
      3 :=
  checkout_full_payment _ _ _ 3 (by simp) rfl
